import Mathlib

/-!
Verification of the blue_escape simulation core.

Shallow embedding of the repository's JavaScript sources:
  * `World` (voxel store and collision scan, src/unnamed/part_000),
  * `Entity.takeDamage` (entity code listed in src/README.md),
  * `CombatSystem` (src/combat.js),
  * `Controls.update` (src/controls.js).

Numbers are modelled by exact rationals `ℚ` (the sources use IEEE doubles;
no claim under study depends on rounding).  Euclidean-distance comparisons
`distanceTo(p) > r` / `< r` from the sources are embedded as the equivalent
squared comparisons `distSq > r^2` / `< r^2`; every threshold `r` involved
(`attackRange * 2 = 60`, the hit radii `2` and `1`) is nonnegative, so the
two forms agree.  The direction-normalisation code (which needs a square
root) is embedded separately over `ℝ` at the end of the file.
-/

namespace BlueEscape

/-- Exact model of a THREE.Vector3 value: three coordinates. -/
structure Vec3 where
  x : ℚ
  y : ℚ
  z : ℚ
deriving DecidableEq

/-- Componentwise vector addition (`Vector3.add`). -/
def Vec3.add (a b : Vec3) : Vec3 :=
  ⟨a.x + b.x, a.y + b.y, a.z + b.z⟩

/-- Scalar multiplication (`Vector3.multiplyScalar`). -/
def Vec3.smul (c : ℚ) (v : Vec3) : Vec3 :=
  ⟨c * v.x, c * v.y, c * v.z⟩

/-- Squared Euclidean distance; `a.distanceTo b` in the source is
`Real.sqrt` of this, and all source comparisons against nonnegative
thresholds are embedded through it. -/
def Vec3.distSq (a b : Vec3) : ℚ :=
  (a.x - b.x) ^ 2 + (a.y - b.y) ^ 2 + (a.z - b.z) ^ 2

/-! ## World (voxel store), src/unnamed/part_000 -/

/-- The closed block-type enumeration of `World.materials`. -/
inductive BlockType
  | grass
  | dirt
  | stone
  | wood
deriving DecidableEq

/-- The `worldData` JavaScript `Map` keyed by the string
`"⌊x⌋,⌊y⌋,⌊z⌋"`; the string key is an injective image of the integer
triple, so the map is embedded as a partial map on `ℤ × ℤ × ℤ`. -/
structure World where
  worldData : ℤ × ℤ × ℤ → Option BlockType

/-- A world with no blocks (the `Map` starts empty). -/
def World.empty : World := ⟨fun _ => none⟩

/-- `getBlockKey(x, y, z)`: floors each coordinate before key formation. -/
def getBlockKey (x y z : ℚ) : ℤ × ℤ × ℤ :=
  (⌊x⌋, ⌊y⌋, ⌊z⌋)

/-- `hasBlock(x, y, z)`: key membership in `worldData`. -/
def World.hasBlock (w : World) (x y z : ℚ) : Bool :=
  (w.worldData (getBlockKey x y z)).isSome

/-- `getBlock(x, y, z)`: `worldData.get(key)` (`undefined` ↦ `none`). -/
def World.getBlock (w : World) (x y z : ℚ) : Option BlockType :=
  w.worldData (getBlockKey x y z)

/-- `addBlock(x, y, z, blockType)`: no-op when the key is already present
(`if (this.worldData.has(key)) return;`), otherwise stores the block.
Mesh/scene side effects are render-only and carry no core state. -/
def World.addBlock (w : World) (x y z : ℚ) (blockType : BlockType) : World :=
  if w.hasBlock x y z then w
  else ⟨fun k => if k = getBlockKey x y z then some blockType else w.worldData k⟩

/-- `removeBlock(x, y, z)`: returns `false` and leaves the store unchanged
when the key is absent, otherwise deletes the entry and returns `true`. -/
def World.removeBlock (w : World) (x y z : ℚ) : World × Bool :=
  if w.hasBlock x y z then
    (⟨fun k => if k = getBlockKey x y z then none else w.worldData k⟩, true)
  else (w, false)

/-- The inclusive integer interval `[lo, hi]` scanned by the
`for (let b = min; b <= max; b++)` loops of `checkCollision`. -/
def intRange (lo hi : ℤ) : List ℤ :=
  (List.range (hi + 1 - lo).toNat).map fun i => lo + (i : ℤ)

/-- `checkCollision(x, y, z, width, height)`: brute-force scan of every
cell overlapped by the box of half-width `width / 2` around `(x, z)`
rising from `y` to `y + height`; true when any scanned cell holds a
block. -/
def World.checkCollision (w : World) (x y z width height : ℚ) : Bool :=
  let halfWidth := width / 2
  let minX := ⌊x - halfWidth⌋
  let maxX := ⌊x + halfWidth⌋
  let minY := ⌊y⌋
  let maxY := ⌊y + height⌋
  let minZ := ⌊z - halfWidth⌋
  let maxZ := ⌊z + halfWidth⌋
  (intRange minX maxX).any fun bx =>
    (intRange minY maxY).any fun cy =>
      (intRange minZ maxZ).any fun bz =>
        w.hasBlock (bx : ℚ) (cy : ℚ) (bz : ℚ)

/-! ## Entity (base class listed in src/README.md) -/

/-- An entity's core state.  `deaths` counts the `onDeath()` invocations
(the handler only performs scene removal, so the count is the entire
observable effect). -/
structure Entity where
  position : Vec3
  health : ℚ
  maxHealth : ℚ
  alive : Bool
  deaths : ℕ
deriving DecidableEq

/-- `Entity.takeDamage(amount)`: subtracts, and when the result is `≤ 0`
clamps health to `0`, assigns `alive = false` and calls `onDeath()`.
There is no guard on an already-dead entity. -/
def Entity.takeDamage (e : Entity) (amount : ℚ) : Entity :=
  let h := e.health - amount
  if h ≤ 0 then
    { e with health := 0, alive := false, deaths := e.deaths + 1 }
  else
    { e with health := h }

/-! ## CombatSystem (src/combat.js)

The constructor's combat parameters are never reassigned anywhere in the
repository, so they are embedded as constants. -/

/-- `this.maxPlayerHealth = 100`. -/
def maxPlayerHealth : ℚ := 100

/-- `this.attackRate = 0.5`. -/
def attackRate : ℚ := 1 / 2

/-- `this.attackDamage = 25`. -/
def attackDamage : ℚ := 25

/-- `this.attackRange = 30`. -/
def attackRange : ℚ := 30

/-- `this.projectileSpeed = 20`. -/
def projectileSpeed : ℚ := 20

/-- A live projectile (`mesh` is render-only and omitted). -/
structure Projectile where
  position : Vec3
  velocity : Vec3
  damage : ℚ
deriving DecidableEq

/-- The mutable combat state: player health, the attack cooldown and the
live projectile list.  Damage numbers and particle effects are render-only
bookkeeping and carry no gameplay state. -/
structure CombatState where
  playerHealth : ℚ
  attackCooldown : ℚ
  projectiles : List Projectile
deriving DecidableEq

namespace CombatSystem

/-- `CombatSystem.update(delta)`: lowers the cooldown (floored at `0`) and
advances every projectile by `velocity * delta`, dropping those whose
distance to the camera's current position exceeds `attackRange * 2`.
The camera position read by the source through `this.camera` is passed as
`cameraPos`. -/
def update (s : CombatState) (delta : ℚ) (cameraPos : Vec3) : CombatState :=
  { s with
    attackCooldown := max 0 (s.attackCooldown - delta)
    projectiles := s.projectiles.filterMap fun proj =>
      let pos := Vec3.add proj.position (Vec3.smul delta proj.velocity)
      if (attackRange * 2) ^ 2 < Vec3.distSq pos cameraPos then none
      else some { proj with position := pos } }

/-- `canAttack()`: the cooldown has run out. -/
def canAttack (s : CombatState) : Bool :=
  s.attackCooldown ≤ 0

/-- `shootProjectile()`: `null` when `canAttack()` fails; otherwise resets
the cooldown to `attackRate` and appends one projectile starting two units
in front of the camera.  `direction` is the camera's world direction
(`getWorldDirection` returns it unit-length, so the source's following
`normalize()` is the identity on it); `cameraPos` is the camera position. -/
def shootProjectile (s : CombatState) (cameraPos direction : Vec3) :
    Option Projectile × CombatState :=
  if ¬ canAttack s then (none, s)
  else
    let startPos := Vec3.add cameraPos (Vec3.smul 2 direction)
    let proj : Projectile :=
      { position := startPos
        velocity := Vec3.smul projectileSpeed direction
        damage := attackDamage }
    (some proj,
      { s with
        attackCooldown := attackRate
        projectiles := s.projectiles ++ [proj] })

/-- One entry of the `hits` list returned by `checkProjectileHits`; the
source stores the entity object itself, embedded here as the entity's
index in the scanned list. -/
structure HitEvent where
  entityIdx : ℕ
  damage : ℚ
deriving DecidableEq

/-- Index of the first entity in list order that is alive and within the
fixed hit radius `2` of `pos` (the source's inner `for ... of` loop with
`if (!entity.alive) continue;` and `distance < 2`). -/
def hitIndex (pos : Vec3) : List Entity → Option ℕ
  | [] => none
  | e :: es =>
    if e.alive = true ∧ Vec3.distSq pos e.position < 2 ^ 2 then some 0
    else (hitIndex pos es).map Nat.succ

/-- Replace the element at position `i` (used to model `takeDamage` called
on the JavaScript entity object shared by later loop iterations). -/
def updateAt {α : Type} : ℕ → (α → α) → List α → List α
  | _, _, [] => []
  | 0, f, a :: as => f a :: as
  | n + 1, f, a :: as => a :: updateAt n f as

/-- The `projectiles.filter` body of `checkProjectileHits`, run left to
right: each projectile scans the entities in list order; on the first
alive entity within radius it damages that entity, records one hit event
and is dropped; otherwise it is kept.  Returns (kept projectiles,
entities after damage, hit events in projectile order). -/
def procProjectiles :
    List Projectile → List Entity → List Projectile × List Entity × List HitEvent
  | [], ents => ([], ents, [])
  | proj :: rest, ents =>
    match hitIndex proj.position ents with
    | some i =>
      let ents' := updateAt i (fun e => e.takeDamage proj.damage) ents
      let r := procProjectiles rest ents'
      (r.1, r.2.1, ⟨i, proj.damage⟩ :: r.2.2)
    | none =>
      let r := procProjectiles rest ents
      (proj :: r.1, r.2.1, r.2.2)

/-- `checkProjectileHits(entities)`: resolves every live projectile
against the entity list and returns the new combat state, the updated
entities and the hit events. -/
def checkProjectileHits (s : CombatState) (entities : List Entity) :
    CombatState × List Entity × List HitEvent :=
  let r := procProjectiles s.projectiles entities
  ({ s with projectiles := r.1 }, r.2.1, r.2.2)

/-- `damagePlayer(amount)`: `playerHealth = max(0, playerHealth - amount)`. -/
def damagePlayer (s : CombatState) (amount : ℚ) : CombatState :=
  { s with playerHealth := max 0 (s.playerHealth - amount) }

/-- `healPlayer(amount)`:
`playerHealth = min(maxPlayerHealth, playerHealth + amount)`. -/
def healPlayer (s : CombatState) (amount : ℚ) : CombatState :=
  { s with playerHealth := min maxPlayerHealth (s.playerHealth + amount) }

/-- `isPlayerAlive()`. -/
def isPlayerAlive (s : CombatState) : Bool :=
  0 < s.playerHealth

/-- `resetPlayer()`: restores `playerHealth` to `maxPlayerHealth`. -/
def resetPlayer (s : CombatState) : CombatState :=
  { s with playerHealth := maxPlayerHealth }

end CombatSystem

/-! ## Controls (src/controls.js) -/

/-- `this.gravity = 20.0`. -/
def gravity : ℚ := 20

/-- `this.playerWidth = 0.6`. -/
def playerWidth : ℚ := 3 / 5

/-- `this.playerHeight = 1.8`. -/
def playerHeight : ℚ := 9 / 5

/-- The controlled body's state: `camera.position`, `velocity.y` (the only
velocity component the integrator reads or writes) and the `canJump`
grounded flag. -/
structure PlayerState where
  pos : Vec3
  velocityY : ℚ
  canJump : Bool
deriving DecidableEq

/-- `Controls.update(delta)` from the gravity line onwards: applies
gravity, forms the candidate position from the horizontal velocity and
the vertical velocity, and resolves the axes in the order X, then Z, then
Y against `checkCollision`; a rejected falling Y move grounds the body,
zeroes the vertical velocity and snaps `position.y` to its floor.  The
horizontal velocity `hv` (computed by the source from the input flags and
the camera's forward vector, embedded separately over `ℝ` as
`computeHorizontalVelocity`) is passed as a parameter. -/
def Controls.update (world : World) (s : PlayerState) (hv : Vec3) (delta : ℚ) :
    PlayerState :=
  let vy := s.velocityY - gravity * delta
  let nx := s.pos.x + hv.x * delta
  let nz := s.pos.z + hv.z * delta
  let ny := s.pos.y + vy * delta
  let x1 :=
    if World.checkCollision world nx s.pos.y s.pos.z playerWidth playerHeight
    then s.pos.x else nx
  let z1 :=
    if World.checkCollision world x1 s.pos.y nz playerWidth playerHeight
    then s.pos.z else nz
  if World.checkCollision world x1 ny z1 playerWidth playerHeight then
    if vy < 0 then
      { pos := ⟨x1, (⌊s.pos.y⌋ : ℚ), z1⟩, velocityY := 0, canJump := true }
    else
      { pos := ⟨x1, s.pos.y, z1⟩, velocityY := 0, canJump := s.canJump }
  else
    { pos := ⟨x1, ny, z1⟩, velocityY := vy, canJump := false }

/-! ## Direction computation over `ℝ`

The movement-direction code of `Controls.update` (src/controls.js lines
146–170) and the chase/wander movement of the entity classes listed in
src/README.md normalise vectors, which needs a square root; this part of
the embedding therefore lives over `ℝ`. -/

/-- A THREE.Vector3 value in the real-valued part of the embedding. -/
structure RVec3 where
  x : ℝ
  y : ℝ
  z : ℝ

/-- Componentwise addition. -/
def RVec3.add (a b : RVec3) : RVec3 :=
  ⟨a.x + b.x, a.y + b.y, a.z + b.z⟩

/-- Scalar multiplication (`multiplyScalar`). -/
def RVec3.scale (c : ℝ) (v : RVec3) : RVec3 :=
  ⟨c * v.x, c * v.y, c * v.z⟩

/-- Cross product (`crossVectors`). -/
def RVec3.cross (a b : RVec3) : RVec3 :=
  ⟨a.y * b.z - a.z * b.y, a.z * b.x - a.x * b.z, a.x * b.y - a.y * b.x⟩

/-- Euclidean length (`Vector3.length`). -/
noncomputable def RVec3.len (v : RVec3) : ℝ :=
  Real.sqrt (v.x ^ 2 + v.y ^ 2 + v.z ^ 2)

/-- `THREE.Vector3.normalize()`: `divideScalar(this.length() || 1)` — the
divisor falls back to `1` when the length is `0`, so the zero vector is
returned unchanged and no division by zero (NaN in the source's floats)
can occur. -/
noncomputable def threeNormalize (v : RVec3) : RVec3 :=
  RVec3.scale (1 / (if RVec3.len v = 0 then 1 else RVec3.len v)) v

/-- The horizontal-velocity computation of `Controls.update` (controls.js
lines 146–170): input flags to `direction`, normalised; camera forward
flattened and normalised; `right = forward × (0,1,0)`; `moveDirection`
combined from both, normalised only when its length is positive
(`if (moveDirection.length() > 0)`); finally scaled by `this.speed = 5`. -/
noncomputable def computeHorizontalVelocity (camForward : RVec3)
    (moveForward moveBackward moveLeft moveRight : Bool) : RVec3 :=
  let dirZ : ℝ := (if moveForward then 1 else 0) - (if moveBackward then 1 else 0)
  let dirX : ℝ := (if moveRight then 1 else 0) - (if moveLeft then 1 else 0)
  let dir := threeNormalize ⟨dirX, 0, dirZ⟩
  let forward := threeNormalize ⟨camForward.x, 0, camForward.z⟩
  let right := RVec3.cross forward ⟨0, 1, 0⟩
  let md := RVec3.add (RVec3.scale dir.z forward) (RVec3.scale dir.x right)
  let md2 := if 0 < RVec3.len md then threeNormalize md else md
  RVec3.scale 5 md2

/-- The chase movement of `Zombie.update` (README listing): the direction
to the player with its vertical component zeroed is normalised and the
position advances by `runSpeed * delta` along it. -/
noncomputable def zombieChaseMove (pos playerPos : RVec3) (runSpeed delta : ℝ) :
    RVec3 :=
  let dir := threeNormalize ⟨playerPos.x - pos.x, 0, playerPos.z - pos.z⟩
  RVec3.add pos (RVec3.scale (runSpeed * delta) dir)

/-- The chase movement of `FireDragon.update` (README listing): as the
zombie's, followed by `position.y = playerPos.y + 5` (fly above the
player). -/
noncomputable def dragonChaseMove (pos playerPos : RVec3) (speed delta : ℝ) :
    RVec3 :=
  let dir := threeNormalize ⟨playerPos.x - pos.x, 0, playerPos.z - pos.z⟩
  let moved := RVec3.add pos (RVec3.scale (speed * delta) dir)
  ⟨moved.x, playerPos.y + 5, moved.z⟩

/-- The wander movement of `Zombie.update` (README listing): moves toward
`wanderTarget` only when the flattened direction is longer than `0.1`;
otherwise the position is left unchanged (the zombie goes idle). -/
noncomputable def zombieWanderMove (pos wanderTarget : RVec3)
    (walkSpeed delta : ℝ) : RVec3 :=
  let d : RVec3 := ⟨wanderTarget.x - pos.x, 0, wanderTarget.z - pos.z⟩
  if 1 / 10 < RVec3.len d then
    RVec3.add pos (RVec3.scale (walkSpeed * delta) (threeNormalize d))
  else pos

/-! ## Claim C1 — Entity.takeDamage death handling -/

/-- Fixture: a live entity with 200 health. -/
def fixEntity : Entity :=
  { position := ⟨0, 0, 0⟩, health := 200, maxHealth := 200, alive := true, deaths := 0 }

/-- C1, counterexample.  Applying 200 damage to a live 200-health entity
kills it and runs `onDeath` once; a second call with the positive amount
200 leaves health at 0 and alive false, but runs `onDeath` a second time
(`deaths` goes from 1 to 2), refuting the claim's "does not run the death
handler (onDeath) again": `takeDamage` has no guard on dead entities. -/
theorem c1_counterexample :
    (Entity.takeDamage fixEntity 200).health = 0
    ∧ (Entity.takeDamage fixEntity 200).alive = false
    ∧ (Entity.takeDamage fixEntity 200).deaths = 1
    ∧ ((Entity.takeDamage fixEntity 200).takeDamage 200).health = 0
    ∧ ((Entity.takeDamage fixEntity 200).takeDamage 200).alive = false
    ∧ ((Entity.takeDamage fixEntity 200).takeDamage 200).deaths = 2 := by
  norm_num [Entity.takeDamage, fixEntity]

/-- C1, amended.  `takeDamage` subtracts the amount and clamps health at
0; when the subtraction does not reach 0 the alive flag and death count
are untouched; when it reaches or crosses 0 — including every further
call on an already-dead entity with a positive amount — health is 0,
alive is false, and `onDeath` runs (the death count increments), so the
death handler IS re-run on a dead entity rather than suppressed.  The
alive flag itself still flips true→false at most once, since it is never
reset. -/
theorem c1_amended (e : Entity) (amount : ℚ) :
    (amount < e.health →
      (e.takeDamage amount).health = e.health - amount
      ∧ (e.takeDamage amount).alive = e.alive
      ∧ (e.takeDamage amount).deaths = e.deaths)
    ∧ (e.health ≤ amount →
      (e.takeDamage amount).health = 0
      ∧ (e.takeDamage amount).alive = false
      ∧ (e.takeDamage amount).deaths = e.deaths + 1) := by
  constructor
  · intro h
    have hne : ¬ (e.health - amount ≤ 0) := by linarith
    simp [Entity.takeDamage, hne]
  · intro h
    have hle : e.health - amount ≤ 0 := by linarith
    simp [Entity.takeDamage, hle]

/-- C1, witness for the amended theorem at the 200-health fixture hit for
exactly 200. -/
theorem c1_amended_witness :
    fixEntity.health ≤ 200
    ∧ ((Entity.takeDamage fixEntity 200).health = 0
      ∧ (Entity.takeDamage fixEntity 200).alive = false
      ∧ (Entity.takeDamage fixEntity 200).deaths = fixEntity.deaths + 1) :=
  ⟨by norm_num [fixEntity], (c1_amended fixEntity 200).2 (by norm_num [fixEntity])⟩

/-! ## Claim C6 — attack cooldown gating -/

/-- Unfolding lemma: a ready attacker fires and the state is rebuilt with
the cooldown reset and one appended projectile. -/
theorem shootProjectile_of_ready {s : CombatState} (h : s.attackCooldown ≤ 0)
    (c d : Vec3) :
    CombatSystem.shootProjectile s c d =
      (some ⟨Vec3.add c (Vec3.smul 2 d), Vec3.smul projectileSpeed d, attackDamage⟩,
        { s with
          attackCooldown := attackRate
          projectiles := s.projectiles
            ++ [⟨Vec3.add c (Vec3.smul 2 d), Vec3.smul projectileSpeed d, attackDamage⟩] }) := by
  unfold CombatSystem.shootProjectile
  rw [if_neg]
  simp [CombatSystem.canAttack, h]

/-- Unfolding lemma: a cooling-down attacker is denied and unchanged. -/
theorem shootProjectile_of_cooling {s : CombatState} (h : 0 < s.attackCooldown)
    (c d : Vec3) :
    CombatSystem.shootProjectile s c d = (none, s) := by
  unfold CombatSystem.shootProjectile
  rw [if_pos]
  simp [CombatSystem.canAttack]
  linarith

/-- Unfolding lemma: `update` lowers the cooldown floored at zero. -/
theorem update_attackCooldown (s : CombatState) (delta : ℚ) (cameraPos : Vec3) :
    (CombatSystem.update s delta cameraPos).attackCooldown
      = max 0 (s.attackCooldown - delta) := rfl

/-- C6.  `shootProjectile` is denied (returns `null`, spawns nothing)
exactly when the cooldown is positive; on success it resets the cooldown
to `attackRate` and appends exactly one projectile; `update` lowers the
cooldown by `delta` floored at 0; and after a successful attack followed
by an `update` advancing `delta ≥ 0` of time, a second attack fires iff
`attackRate ≤ delta`. -/
theorem c6_cooldown_gate :
    (∀ (s : CombatState) (cameraPos direction : Vec3),
      ((CombatSystem.shootProjectile s cameraPos direction).1 = none
          ↔ 0 < s.attackCooldown)
      ∧ (0 < s.attackCooldown →
          (CombatSystem.shootProjectile s cameraPos direction).2 = s)
      ∧ (s.attackCooldown ≤ 0 →
          (CombatSystem.shootProjectile s cameraPos direction).2.attackCooldown
              = attackRate
          ∧ (CombatSystem.shootProjectile s cameraPos direction).2.projectiles.length
              = s.projectiles.length + 1))
    ∧ (∀ (s : CombatState) (delta : ℚ) (cameraPos : Vec3),
      (CombatSystem.update s delta cameraPos).attackCooldown
          = max 0 (s.attackCooldown - delta))
    ∧ (∀ (s : CombatState) (delta : ℚ) (cameraPos1 cameraPos2 d1 d2 : Vec3),
      s.attackCooldown ≤ 0 → 0 ≤ delta →
        ((CombatSystem.shootProjectile
            (CombatSystem.update
              (CombatSystem.shootProjectile s cameraPos1 d1).2 delta cameraPos2)
            cameraPos2 d2).1.isSome = true
          ↔ attackRate ≤ delta)) := by
  refine ⟨fun s cameraPos direction => ?_, fun s delta cameraPos => rfl,
    fun s delta cameraPos1 cameraPos2 d1 d2 h hd => ?_⟩
  · by_cases hc : s.attackCooldown ≤ 0
    · rw [shootProjectile_of_ready hc]
      refine ⟨by simp; linarith, fun hpos => absurd hpos (by linarith), fun _ => ⟨rfl, by simp⟩⟩
    · push_neg at hc
      rw [shootProjectile_of_cooling hc]
      exact ⟨by simp [hc], fun _ => rfl, fun hle => absurd hle (by linarith)⟩
  · rw [shootProjectile_of_ready h]
    set s1 : CombatState :=
      { s with
        attackCooldown := attackRate
        projectiles := s.projectiles
          ++ [⟨Vec3.add cameraPos1 (Vec3.smul 2 d1), Vec3.smul projectileSpeed d1,
                attackDamage⟩] } with hs1
    have h2 : (CombatSystem.update s1 delta cameraPos2).attackCooldown
        = max 0 (attackRate - delta) := by
      rw [update_attackCooldown]
    by_cases hfire : attackRate ≤ delta
    · have hc : (CombatSystem.update s1 delta cameraPos2).attackCooldown ≤ 0 := by
        rw [h2]
        simp only [max_le_iff, le_refl, true_and, sub_nonpos]
        exact hfire
      rw [shootProjectile_of_ready hc]
      simp [hfire]
    · have hc : 0 < (CombatSystem.update s1 delta cameraPos2).attackCooldown := by
        rw [h2]
        rw [lt_max_iff]
        right
        linarith
      rw [shootProjectile_of_cooling hc]
      simp [hfire]

/-- C6, witness: from a cooldown of 0, a first shot fires, and after
advancing half the attack rate the second attempt reports not fired
(`isSome = true ↔ 1/2 ≤ 1/4` — both sides false). -/
theorem c6_cooldown_gate_witness :
    (⟨100, 0, []⟩ : CombatState).attackCooldown ≤ 0
    ∧ (0 : ℚ) ≤ 1 / 4
    ∧ ((CombatSystem.shootProjectile
          (CombatSystem.update
            (CombatSystem.shootProjectile ⟨100, 0, []⟩ ⟨0, 0, 0⟩ ⟨0, 0, 1⟩).2
            (1 / 4) ⟨0, 0, 0⟩)
          ⟨0, 0, 0⟩ ⟨0, 0, 1⟩).1.isSome = true
        ↔ attackRate ≤ 1 / 4) :=
  ⟨by norm_num, by norm_num,
    c6_cooldown_gate.2.2 ⟨100, 0, []⟩ (1 / 4) ⟨0, 0, 0⟩ ⟨0, 0, 0⟩ ⟨0, 0, 1⟩ ⟨0, 0, 1⟩
      (by norm_num) (by norm_num)⟩

/-! ## Claim C7 — voxel store insert / remove / query algebra -/

/-- Unfolding lemma: inserting into an occupied cell is a no-op. -/
theorem addBlock_of_present {w : World} {x y z : ℚ} (h : w.hasBlock x y z = true)
    (t : BlockType) : w.addBlock x y z t = w := by
  unfold World.addBlock
  rw [if_pos h]

/-- Unfolding lemma: inserting into an empty cell stores the block. -/
theorem addBlock_of_absent {w : World} {x y z : ℚ} (h : w.hasBlock x y z = false)
    (t : BlockType) :
    w.addBlock x y z t
      = ⟨fun k => if k = getBlockKey x y z then some t else w.worldData k⟩ := by
  unfold World.addBlock
  rw [if_neg]
  simp [h]

/-- C7.  On a cell that is initially empty: after `addBlock` the cell is
occupied and `getBlock` returns the inserted type; a subsequent
`removeBlock` leaves it unoccupied; a second `addBlock` with a different
type is a no-op (first write wins); and every operation floors its
coordinates before key formation, so it acts on the enclosing integer
cell (`addBlock` and `hasBlock` at fractional coordinates coincide with
the same operations at the floored coordinates). -/
theorem c7_store_algebra (w : World) (x y z : ℚ) (t t' : BlockType)
    (h : w.hasBlock x y z = false) :
    (w.addBlock x y z t).hasBlock x y z = true
    ∧ (w.addBlock x y z t).getBlock x y z = some t
    ∧ ((w.addBlock x y z t).removeBlock x y z).1.hasBlock x y z = false
    ∧ ((w.addBlock x y z t).addBlock x y z t').getBlock x y z = some t
    ∧ w.addBlock x y z t = w.addBlock (⌊x⌋ : ℚ) (⌊y⌋ : ℚ) (⌊z⌋ : ℚ) t
    ∧ w.hasBlock x y z = w.hasBlock (⌊x⌋ : ℚ) (⌊y⌋ : ℚ) (⌊z⌋ : ℚ) := by
  have hk : getBlockKey (⌊x⌋ : ℚ) (⌊y⌋ : ℚ) (⌊z⌋ : ℚ) = getBlockKey x y z := by
    simp [getBlockKey, Int.floor_intCast]
  have hadd := addBlock_of_absent h t
  have hhas : (w.addBlock x y z t).hasBlock x y z = true := by
    simp [hadd, World.hasBlock]
  have hget : (w.addBlock x y z t).getBlock x y z = some t := by
    simp [hadd, World.getBlock]
  refine ⟨hhas, hget, ?_, ?_, ?_, ?_⟩
  · simp [World.removeBlock, hhas, hadd, World.hasBlock]
  · rw [addBlock_of_present hhas t']
    exact hget
  · have h' : w.hasBlock (⌊x⌋ : ℚ) (⌊y⌋ : ℚ) (⌊z⌋ : ℚ) = false := by
      simpa [World.hasBlock, hk] using h
    rw [hadd, addBlock_of_absent h' t, hk]
  · simp [World.hasBlock, hk]

/-- C7, witness at the fractional cell query `(1/2, -3/2, 0)` over the
empty store. -/
theorem c7_store_algebra_witness :
    (World.empty.addBlock (1 / 2) (-(3 / 2)) 0 BlockType.grass).hasBlock
        (1 / 2) (-(3 / 2)) 0 = true
    ∧ (World.empty.addBlock (1 / 2) (-(3 / 2)) 0 BlockType.grass).getBlock
        (1 / 2) (-(3 / 2)) 0 = some BlockType.grass
    ∧ ((World.empty.addBlock (1 / 2) (-(3 / 2)) 0 BlockType.grass).addBlock
        (1 / 2) (-(3 / 2)) 0 BlockType.stone).getBlock (1 / 2) (-(3 / 2)) 0
        = some BlockType.grass :=
  ⟨(c7_store_algebra World.empty (1 / 2) (-(3 / 2)) 0 BlockType.grass BlockType.stone rfl).1,
    (c7_store_algebra World.empty (1 / 2) (-(3 / 2)) 0 BlockType.grass BlockType.stone rfl).2.1,
    (c7_store_algebra World.empty (1 / 2) (-(3 / 2)) 0 BlockType.grass BlockType.stone rfl).2.2.2.1⟩

/-! ## Claim C8 — player health bounds and mutators -/

/-- Fixture: combat state with half player health. -/
def fixCombat : CombatState := ⟨50, 0, []⟩

/-- C8, counterexample.  `resetPlayer` also mutates `playerHealth`
(50 becomes `maxPlayerHealth = 100`), so `damagePlayer` and `healPlayer`
are not the sole mutators of player health. -/
theorem c8_counterexample :
    (CombatSystem.resetPlayer fixCombat).playerHealth ≠ fixCombat.playerHealth := by
  norm_num [CombatSystem.resetPlayer, fixCombat, maxPlayerHealth]

/-- C8, amended.  For nonnegative amounts, `damagePlayer` and
`healPlayer` keep `playerHealth` inside `[0, maxPlayerHealth]`; the other
combat operations (`update`, `shootProjectile`, `checkProjectileHits`)
never touch player health; but `resetPlayer` is a third mutator, setting
health to `maxPlayerHealth` (also inside the range). -/
theorem c8_amended (s : CombatState) (amount delta : ℚ) (cameraPos direction : Vec3)
    (entities : List Entity)
    (h0 : 0 ≤ s.playerHealth) (hm : s.playerHealth ≤ maxPlayerHealth)
    (ha : 0 ≤ amount) :
    (0 ≤ (CombatSystem.damagePlayer s amount).playerHealth
      ∧ (CombatSystem.damagePlayer s amount).playerHealth ≤ maxPlayerHealth)
    ∧ (0 ≤ (CombatSystem.healPlayer s amount).playerHealth
      ∧ (CombatSystem.healPlayer s amount).playerHealth ≤ maxPlayerHealth)
    ∧ (CombatSystem.update s delta cameraPos).playerHealth = s.playerHealth
    ∧ (CombatSystem.shootProjectile s cameraPos direction).2.playerHealth
        = s.playerHealth
    ∧ (CombatSystem.checkProjectileHits s entities).1.playerHealth = s.playerHealth
    ∧ (CombatSystem.resetPlayer s).playerHealth = maxPlayerHealth := by
  have hmax : (0 : ℚ) ≤ maxPlayerHealth := by norm_num [maxPlayerHealth]
  refine ⟨⟨le_max_left 0 _, max_le hmax (by linarith)⟩,
    ⟨le_min (by linarith) (by linarith), min_le_left _ _⟩, rfl, ?_, rfl, rfl⟩
  unfold CombatSystem.shootProjectile
  split
  · rfl
  · rfl

/-- C8, witness for the amended theorem: damaging 30 from health 50 keeps
health in range. -/
theorem c8_amended_witness :
    (0 ≤ fixCombat.playerHealth ∧ fixCombat.playerHealth ≤ maxPlayerHealth
      ∧ (0 : ℚ) ≤ 30)
    ∧ (0 ≤ (CombatSystem.damagePlayer fixCombat 30).playerHealth
      ∧ (CombatSystem.damagePlayer fixCombat 30).playerHealth ≤ maxPlayerHealth) :=
  ⟨⟨by norm_num [fixCombat], by norm_num [fixCombat, maxPlayerHealth], by norm_num⟩,
    (c8_amended fixCombat 30 0 ⟨0, 0, 0⟩ ⟨0, 0, 0⟩ []
      (by norm_num [fixCombat]) (by norm_num [fixCombat, maxPlayerHealth])
      (by norm_num)).1⟩

/-! ## Claim C9 — zero-length direction vectors -/

/-- The zero vector has length zero. -/
theorem RVec3.len_zero : RVec3.len ⟨0, 0, 0⟩ = 0 := by
  simp [RVec3.len]

/-- THREE's normalize maps the zero vector to itself (the `|| 1` divisor
guard), producing no division by zero. -/
theorem threeNormalize_zero : threeNormalize ⟨0, 0, 0⟩ = ⟨0, 0, 0⟩ := by
  simp [threeNormalize, RVec3.scale]

/-- C9.  Wherever a direction vector has zero length before
normalisation, the tick produces no movement from that term, and the
guarded normalisation (`divideScalar(length || 1)`) keeps every result
well defined (no NaN in the model): with no horizontal movement input the
computed horizontal velocity is exactly zero; a zombie or dragon chasing
a player exactly at its horizontal position does not move horizontally
(the dragon's altitude is set by the separate `y = player.y + 5`
assignment); a zombie whose wander target is at its horizontal position
does not move. -/
theorem c9_zero_length_direction :
    (∀ camForward : RVec3,
      computeHorizontalVelocity camForward false false false false = ⟨0, 0, 0⟩)
    ∧ (∀ (pos : RVec3) (py runSpeed delta : ℝ),
      zombieChaseMove pos ⟨pos.x, py, pos.z⟩ runSpeed delta = pos)
    ∧ (∀ (pos : RVec3) (py speed delta : ℝ),
      dragonChaseMove pos ⟨pos.x, py, pos.z⟩ speed delta = ⟨pos.x, py + 5, pos.z⟩)
    ∧ (∀ (pos : RVec3) (wy walkSpeed delta : ℝ),
      zombieWanderMove pos ⟨pos.x, wy, pos.z⟩ walkSpeed delta = pos) := by
  refine ⟨fun camForward => ?_, fun pos py runSpeed delta => ?_,
    fun pos py speed delta => ?_, fun pos wy walkSpeed delta => ?_⟩
  · simp [computeHorizontalVelocity, threeNormalize_zero, RVec3.len_zero,
      RVec3.scale, RVec3.add, RVec3.cross]
  · cases pos
    simp [zombieChaseMove, threeNormalize_zero, RVec3.add, RVec3.scale]
  · cases pos
    simp [dragonChaseMove, threeNormalize_zero, RVec3.add, RVec3.scale]
  · cases pos
    simp [zombieWanderMove, RVec3.len_zero]

/-! ## Claim C2 — projectile advance and lifetime -/

/-- C2, counterexample.  Fire from a camera at the origin looking along
`z`: the projectile starts at `(0,0,2)` (its fire origin).  After one
`update` of a tenth of a second it has travelled to `(0,0,4)` — distance
2 from its fire origin, far below `attackRange * 2 = 60` — yet with the
camera now at `(100,0,0)` the projectile is removed, because the source
measures the lifetime distance from the camera's CURRENT position
(`this.camera.position`), not from the fixed point it was fired from. -/
theorem c2_counterexample :
    (CombatSystem.shootProjectile ⟨100, 0, []⟩ ⟨0, 0, 0⟩ ⟨0, 0, 1⟩).1
        = some ⟨⟨0, 0, 2⟩, ⟨0, 0, 20⟩, 25⟩
    ∧ Vec3.distSq (Vec3.add ⟨0, 0, 2⟩ (Vec3.smul (1 / 10) ⟨0, 0, 20⟩)) ⟨0, 0, 2⟩
        ≤ (attackRange * 2) ^ 2
    ∧ (CombatSystem.update
        (CombatSystem.shootProjectile ⟨100, 0, []⟩ ⟨0, 0, 0⟩ ⟨0, 0, 1⟩).2
        (1 / 10) ⟨100, 0, 0⟩).projectiles = [] := by
  rw [shootProjectile_of_ready (by norm_num)]
  refine ⟨?_, ?_, ?_⟩
  · norm_num [Vec3.add, Vec3.smul, projectileSpeed, attackDamage]
  · norm_num [Vec3.add, Vec3.smul, Vec3.distSq, attackRange]
  · norm_num [CombatSystem.update, Vec3.add, Vec3.smul, Vec3.distSq, attackRange,
      projectileSpeed, attackDamage, List.filterMap_cons]

/-- C2, amended.  `CombatSystem.update` advances every live projectile by
`velocity * delta` and keeps exactly those whose distance from the
camera's current position (not from the fixed fire origin) is within
`attackRange * 2`; a projectile inside that camera-centred radius stays
in the live set. -/
theorem c2_amended (s : CombatState) (delta : ℚ) (cameraPos : Vec3) :
    (CombatSystem.update s delta cameraPos).projectiles
      = (s.projectiles.map fun proj =>
          { proj with
            position := Vec3.add proj.position (Vec3.smul delta proj.velocity) }).filter
          fun proj =>
            decide (Vec3.distSq proj.position cameraPos ≤ (attackRange * 2) ^ 2) := by
  have hu : (CombatSystem.update s delta cameraPos).projectiles
      = s.projectiles.filterMap fun proj =>
          let pos := Vec3.add proj.position (Vec3.smul delta proj.velocity)
          if (attackRange * 2) ^ 2 < Vec3.distSq pos cameraPos then none
          else some { proj with position := pos } := rfl
  rw [hu]
  induction s.projectiles with
  | nil => rfl
  | cons p ps ih =>
    by_cases hfar : (attackRange * 2) ^ 2
        < Vec3.distSq (Vec3.add p.position (Vec3.smul delta p.velocity)) cameraPos
    · have hnle : ¬ Vec3.distSq (Vec3.add p.position (Vec3.smul delta p.velocity))
          cameraPos ≤ (attackRange * 2) ^ 2 := not_le.mpr hfar
      simp only [List.filterMap_cons, List.map_cons, List.filter_cons, if_pos hfar,
        hnle, decide_eq_true_eq, decide_eq_false hnle, Bool.false_eq_true, if_false,
        ih]
    · have hle : Vec3.distSq (Vec3.add p.position (Vec3.smul delta p.velocity))
          cameraPos ≤ (attackRange * 2) ^ 2 := not_lt.mp hfar
      simp only [List.filterMap_cons, List.map_cons, List.filter_cons, if_neg hfar,
        decide_eq_true hle, if_true, ih]

/-! ## Spec-side decomposition of the integrate step

The spec describes the integrate step as per-axis resolution (items (4)
and (5) of §4.2).  The following definitions transcribe that description;
`Controls.update_eq` states that the source-translated `Controls.update`
is definitionally this resolution. -/

/-- Vertical velocity after the gravity step (`velocity.y -= g * delta`). -/
def candVy (s : PlayerState) (delta : ℚ) : ℚ :=
  s.velocityY - gravity * delta

/-- Candidate X after the horizontal movement. -/
def candX (s : PlayerState) (hv : Vec3) (delta : ℚ) : ℚ :=
  s.pos.x + hv.x * delta

/-- Candidate Z after the horizontal movement. -/
def candZ (s : PlayerState) (hv : Vec3) (delta : ℚ) : ℚ :=
  s.pos.z + hv.z * delta

/-- Candidate Y after the vertical movement (post-gravity velocity). -/
def candY (s : PlayerState) (delta : ℚ) : ℚ :=
  s.pos.y + candVy s delta * delta

/-- X resolved first: accepted only if `checkCollision` at the candidate
X — holding Y and Z at their current values — returns false. -/
def resolvedX (world : World) (s : PlayerState) (hv : Vec3) (delta : ℚ) : ℚ :=
  if World.checkCollision world (candX s hv delta) s.pos.y s.pos.z
      playerWidth playerHeight
  then s.pos.x else candX s hv delta

/-- Z resolved second: accepted only if `checkCollision` at the candidate
Z — holding X at its possibly-already-updated value and Y current —
returns false. -/
def resolvedZ (world : World) (s : PlayerState) (hv : Vec3) (delta : ℚ) : ℚ :=
  if World.checkCollision world (resolvedX world s hv delta) s.pos.y
      (candZ s hv delta) playerWidth playerHeight
  then s.pos.z else candZ s hv delta

/-- The Y-axis collision test, at the possibly-already-updated X and Z. -/
def yBlocked (world : World) (s : PlayerState) (hv : Vec3) (delta : ℚ) : Bool :=
  World.checkCollision world (resolvedX world s hv delta) (candY s delta)
    (resolvedZ world s hv delta) playerWidth playerHeight

/-- The source-translated `Controls.update` is exactly the spec-side
axis-by-axis resolution (definitional equality). -/
theorem Controls.update_eq (world : World) (s : PlayerState) (hv : Vec3)
    (delta : ℚ) :
    Controls.update world s hv delta =
      if yBlocked world s hv delta then
        if candVy s delta < 0 then
          { pos := ⟨resolvedX world s hv delta, (⌊s.pos.y⌋ : ℚ),
              resolvedZ world s hv delta⟩
            velocityY := 0, canJump := true }
        else
          { pos := ⟨resolvedX world s hv delta, s.pos.y, resolvedZ world s hv delta⟩
            velocityY := 0, canJump := s.canJump }
      else
        { pos := ⟨resolvedX world s hv delta, candY s delta,
            resolvedZ world s hv delta⟩
          velocityY := candVy s delta, canJump := false } := rfl

/-! ## Concrete worlds and states for the integrate-step claims -/

/-- Fixture: a single stone block in cell `(0, 0, 0)` (ground below a
player standing near `x = z = 1/2`). -/
def fixWorld1 : World := World.addBlock World.empty 0 0 0 BlockType.stone

/-- Fixture: a single stone block in cell `(0, 4, 0)` (a ceiling above a
player standing near `x = z = 1/2`). -/
def fixWorld2 : World := World.addBlock World.empty 0 4 0 BlockType.stone

/-- The empty store never reports a collision. -/
theorem checkCollision_empty (x y z w h : ℚ) :
    World.checkCollision World.empty x y z w h = false := by
  simp [World.checkCollision, World.hasBlock, World.empty]

/-- The player box at `(1/2, 3/10, 1/2)` overlaps the ground cell
`(0, 0, 0)` of `fixWorld1`. -/
theorem fixWorld1_low :
    World.checkCollision fixWorld1 (1 / 2) (3 / 10) (1 / 2)
      playerWidth playerHeight = true := by
  have e1 : ⌊(1 / 2 : ℚ) - 3 / 5 / 2⌋ = 0 := by norm_num [Int.floor_eq_iff]
  have e2 : ⌊(1 / 2 : ℚ) + 3 / 5 / 2⌋ = 0 := by norm_num [Int.floor_eq_iff]
  have e3 : ⌊(3 / 10 : ℚ)⌋ = 0 := by norm_num [Int.floor_eq_iff]
  have e4 : ⌊(3 / 10 : ℚ) + 9 / 5⌋ = 2 := by norm_num [Int.floor_eq_iff]
  simp only [World.checkCollision, playerWidth, playerHeight, e1, e2, e3, e4]
  norm_num [intRange, List.range_succ, World.hasBlock, fixWorld1, World.addBlock,
    World.empty, getBlockKey]

/-- The player box at `(1/2, 23/10, 1/2)` overlaps the ceiling cell
`(0, 4, 0)` of `fixWorld2`. -/
theorem fixWorld2_high :
    World.checkCollision fixWorld2 (1 / 2) (23 / 10) (1 / 2)
      playerWidth playerHeight = true := by
  have e1 : ⌊(1 / 2 : ℚ) - 3 / 5 / 2⌋ = 0 := by norm_num [Int.floor_eq_iff]
  have e2 : ⌊(1 / 2 : ℚ) + 3 / 5 / 2⌋ = 0 := by norm_num [Int.floor_eq_iff]
  have e3 : ⌊(23 / 10 : ℚ)⌋ = 2 := by norm_num [Int.floor_eq_iff]
  have e4 : ⌊(23 / 10 : ℚ) + 9 / 5⌋ = 4 := by norm_num [Int.floor_eq_iff]
  simp only [World.checkCollision, playerWidth, playerHeight, e1, e2, e3, e4]
  norm_num [intRange, List.range_succ, World.hasBlock, fixWorld2, World.addBlock,
    World.empty, getBlockKey]
  exact ⟨2, by norm_num, by norm_num⟩

/-! ## Claim C3 — per-axis resolution order -/

/-- Fixture: body at rest in empty space. -/
def fixState0 : PlayerState := ⟨⟨0, 0, 0⟩, 0, false⟩

/-- Fixture: body at `(1/2, 5/2, 1/2)` falling at 20 units/s. -/
def fixState3 : PlayerState := ⟨⟨1 / 2, 5 / 2, 1 / 2⟩, -20, false⟩

/-- C3, counterexample.  In `fixWorld1`, the falling body at height `5/2`
has its Y move rejected (the candidate `y = 3/10` box overlaps the ground
cell), and the update CHANGES `position.y` from `5/2` to `⌊5/2⌋ = 2`
rather than leaving the rejected axis's coordinate unchanged: vertical
rejection while falling snaps Y to its floor. -/
theorem c3_counterexample :
    yBlocked fixWorld1 fixState3 ⟨0, 0, 0⟩ (1 / 10) = true
    ∧ (Controls.update fixWorld1 fixState3 ⟨0, 0, 0⟩ (1 / 10)).pos.y = 2
    ∧ fixState3.pos.y = 5 / 2 := by
  have hfloor : ⌊(5 / 2 : ℚ)⌋ = 2 := by norm_num [Int.floor_eq_iff]
  have hb : yBlocked fixWorld1 fixState3 ⟨0, 0, 0⟩ (1 / 10) = true := by
    have h1 : candY fixState3 (1 / 10) = 3 / 10 := by
      norm_num [candY, candVy, fixState3, gravity]
    have h2 : resolvedX fixWorld1 fixState3 ⟨0, 0, 0⟩ (1 / 10) = 1 / 2 := by
      norm_num [resolvedX, candX, fixState3]
    have h3 : resolvedZ fixWorld1 fixState3 ⟨0, 0, 0⟩ (1 / 10) = 1 / 2 := by
      norm_num [resolvedZ, candZ, fixState3, h2]
    rw [yBlocked, h1, h2, h3]
    exact fixWorld1_low
  refine ⟨hb, ?_, rfl⟩
  rw [Controls.update_eq, hb]
  have hf : candVy fixState3 (1 / 10) < 0 := by
    norm_num [candVy, fixState3, gravity]
  simp only [if_true, if_pos hf]
  show ((⌊fixState3.pos.y⌋ : ℤ) : ℚ) = 2
  rw [show fixState3.pos.y = 5 / 2 from rfl, hfloor]
  norm_num

/-- C3, amended.  The axes are resolved in the order X, then Z, then Y:
the final X is the candidate X iff `checkCollision` there (holding Y, Z
current) is false, else unchanged; the final Z likewise against the
already-resolved X; the Y move is accepted (with its full candidate
value) iff `checkCollision` at the already-resolved X and Z is false.  A
rejected X or Z leaves that coordinate unchanged, but a rejected Y
coordinate is left unchanged only when the body is not falling: in the
falling case it is snapped to `⌊y⌋` by the vertical-resolution rule. -/
theorem c3_amended (world : World) (s : PlayerState) (hv : Vec3) (delta : ℚ) :
    (Controls.update world s hv delta).pos.x = resolvedX world s hv delta
    ∧ (Controls.update world s hv delta).pos.z = resolvedZ world s hv delta
    ∧ (yBlocked world s hv delta = false →
        (Controls.update world s hv delta).pos.y = candY s delta
        ∧ (Controls.update world s hv delta).velocityY = candVy s delta)
    ∧ (yBlocked world s hv delta = true →
        (Controls.update world s hv delta).pos.y
          = if candVy s delta < 0 then (⌊s.pos.y⌋ : ℚ) else s.pos.y) := by
  rw [Controls.update_eq]
  by_cases hb : yBlocked world s hv delta
  · by_cases hf : candVy s delta < 0
    · simp [hb, hf]
    · simp [hb, hf]
  · simp [hb]

/-- C3, witness for the amended theorem: in the empty world the Y test is
clear and the accepted Y move takes the candidate value. -/
theorem c3_amended_witness :
    yBlocked World.empty fixState0 ⟨0, 0, 0⟩ 1 = false
    ∧ ((Controls.update World.empty fixState0 ⟨0, 0, 0⟩ 1).pos.y = candY fixState0 1
      ∧ (Controls.update World.empty fixState0 ⟨0, 0, 0⟩ 1).velocityY
          = candVy fixState0 1) :=
  ⟨by simp [yBlocked, checkCollision_empty],
    (c3_amended World.empty fixState0 ⟨0, 0, 0⟩ 1).2.2.1
      (by simp [yBlocked, checkCollision_empty])⟩

/-! ## Claim C4 — grounding on a rejected falling Y move -/

/-- Fixture: body at `(1/2, 3/2, 1/2)` falling at 10 units/s. -/
def fixState4 : PlayerState := ⟨⟨1 / 2, 3 / 2, 1 / 2⟩, -10, false⟩

/-- C4.  When the Y move is rejected while the (post-gravity) vertical
velocity is negative, the body becomes grounded in that same tick
(`canJump = true`), the vertical velocity is set to exactly 0, and
`position.y` is snapped to the floor of the pre-collision Y; when the Y
move is accepted, the body is not grounded (`canJump = false`). -/
theorem c4_grounding (world : World) (s : PlayerState) (hv : Vec3) (delta : ℚ) :
    (yBlocked world s hv delta = true → candVy s delta < 0 →
      (Controls.update world s hv delta).canJump = true
      ∧ (Controls.update world s hv delta).velocityY = 0
      ∧ (Controls.update world s hv delta).pos.y = (⌊s.pos.y⌋ : ℚ))
    ∧ (yBlocked world s hv delta = false →
      (Controls.update world s hv delta).canJump = false) := by
  rw [Controls.update_eq]
  constructor
  · intro hb hf
    simp [hb, hf]
  · intro hb
    simp [hb]

/-- C4, witness: the falling body over the ground cell of `fixWorld1`
grounds, zeroes its vertical velocity and snaps to `⌊3/2⌋`. -/
theorem c4_grounding_witness :
    yBlocked fixWorld1 fixState4 ⟨0, 0, 0⟩ (1 / 10) = true
    ∧ candVy fixState4 (1 / 10) < 0
    ∧ ((Controls.update fixWorld1 fixState4 ⟨0, 0, 0⟩ (1 / 10)).canJump = true
      ∧ (Controls.update fixWorld1 fixState4 ⟨0, 0, 0⟩ (1 / 10)).velocityY = 0
      ∧ (Controls.update fixWorld1 fixState4 ⟨0, 0, 0⟩ (1 / 10)).pos.y
          = (⌊fixState4.pos.y⌋ : ℚ)) := by
  have hb : yBlocked fixWorld1 fixState4 ⟨0, 0, 0⟩ (1 / 10) = true := by
    have h1 : candY fixState4 (1 / 10) = 3 / 10 := by
      norm_num [candY, candVy, fixState4, gravity]
    have h2 : resolvedX fixWorld1 fixState4 ⟨0, 0, 0⟩ (1 / 10) = 1 / 2 := by
      norm_num [resolvedX, candX, fixState4]
    have h3 : resolvedZ fixWorld1 fixState4 ⟨0, 0, 0⟩ (1 / 10) = 1 / 2 := by
      norm_num [resolvedZ, candZ, fixState4, h2]
    rw [yBlocked, h1, h2, h3]
    exact fixWorld1_low
  have hf : candVy fixState4 (1 / 10) < 0 := by
    norm_num [candVy, fixState4, gravity]
  exact ⟨hb, hf, (c4_grounding fixWorld1 fixState4 ⟨0, 0, 0⟩ (1 / 10)).1 hb hf⟩

/-! ## Claim C10 — vertical velocity zeroed on any rejected Y move -/

/-- Fixture: body at `(1/2, 3/2, 1/2)` moving upward at 10 units/s. -/
def fixState10 : PlayerState := ⟨⟨1 / 2, 3 / 2, 1 / 2⟩, 10, false⟩

/-- C10.  Whenever the Y move is rejected, the vertical velocity is set
to 0 regardless of its sign — including upward movement into a ceiling —
while grounding (`canJump := true`) and the floor snap happen only in the
falling case: with nonnegative post-gravity vertical velocity, `canJump`
and `position.y` are left unchanged. -/
theorem c10_ceiling (world : World) (s : PlayerState) (hv : Vec3) (delta : ℚ) :
    yBlocked world s hv delta = true →
      (Controls.update world s hv delta).velocityY = 0
      ∧ (0 ≤ candVy s delta →
          (Controls.update world s hv delta).canJump = s.canJump
          ∧ (Controls.update world s hv delta).pos.y = s.pos.y) := by
  rw [Controls.update_eq]
  intro hb
  constructor
  · by_cases hf : candVy s delta < 0
    · simp [hb, hf]
    · simp [hb, hf]
  · intro hge
    have hf : ¬ candVy s delta < 0 := not_lt.mpr hge
    simp [hb, hf]

/-- C10, witness: the rising body under the ceiling cell of `fixWorld2`
has its vertical velocity zeroed while `canJump` and `position.y` stay
unchanged. -/
theorem c10_ceiling_witness :
    yBlocked fixWorld2 fixState10 ⟨0, 0, 0⟩ (1 / 10) = true
    ∧ 0 ≤ candVy fixState10 (1 / 10)
    ∧ (Controls.update fixWorld2 fixState10 ⟨0, 0, 0⟩ (1 / 10)).velocityY = 0
    ∧ ((Controls.update fixWorld2 fixState10 ⟨0, 0, 0⟩ (1 / 10)).canJump
          = fixState10.canJump
      ∧ (Controls.update fixWorld2 fixState10 ⟨0, 0, 0⟩ (1 / 10)).pos.y
          = fixState10.pos.y) := by
  have hb : yBlocked fixWorld2 fixState10 ⟨0, 0, 0⟩ (1 / 10) = true := by
    have h1 : candY fixState10 (1 / 10) = 23 / 10 := by
      norm_num [candY, candVy, fixState10, gravity]
    have h2 : resolvedX fixWorld2 fixState10 ⟨0, 0, 0⟩ (1 / 10) = 1 / 2 := by
      norm_num [resolvedX, candX, fixState10]
    have h3 : resolvedZ fixWorld2 fixState10 ⟨0, 0, 0⟩ (1 / 10) = 1 / 2 := by
      norm_num [resolvedZ, candZ, fixState10, h2]
    rw [yBlocked, h1, h2, h3]
    exact fixWorld2_high
  have hge : 0 ≤ candVy fixState10 (1 / 10) := by
    norm_num [candVy, fixState10, gravity]
  exact ⟨hb, hge, (c10_ceiling fixWorld2 fixState10 ⟨0, 0, 0⟩ (1 / 10) hb).1,
    (c10_ceiling fixWorld2 fixState10 ⟨0, 0, 0⟩ (1 / 10) hb).2 hge⟩

/-! ## Claim C5 — projectile hit resolution -/

open CombatSystem

/-- Whether an entity can be hit at scan time: alive and within the fixed
hit radius `2` of the projectile position (squared comparison). -/
def hittable (pos : Vec3) (e : Entity) : Prop :=
  e.alive = true ∧ Vec3.distSq pos e.position < 2 ^ 2

instance (pos : Vec3) (e : Entity) : Decidable (hittable pos e) := by
  unfold hittable
  infer_instance

/-- Unfolding lemma: a projectile whose scan hits entity `i` damages that
entity, prepends its hit event, and is dropped. -/
theorem procProjectiles_hit (proj : Projectile) (rest : List Projectile)
    (ents : List Entity) (i : ℕ) (h : hitIndex proj.position ents = some i) :
    procProjectiles (proj :: rest) ents
      = ((procProjectiles rest
            (updateAt i (fun e => e.takeDamage proj.damage) ents)).1,
         (procProjectiles rest
            (updateAt i (fun e => e.takeDamage proj.damage) ents)).2.1,
         ⟨i, proj.damage⟩
           :: (procProjectiles rest
                (updateAt i (fun e => e.takeDamage proj.damage) ents)).2.2) := by
  rw [procProjectiles, h]

/-- Unfolding lemma: a projectile whose scan misses is kept unchanged. -/
theorem procProjectiles_miss (proj : Projectile) (rest : List Projectile)
    (ents : List Entity) (h : hitIndex proj.position ents = none) :
    procProjectiles (proj :: rest) ents
      = (proj :: (procProjectiles rest ents).1,
         (procProjectiles rest ents).2.1,
         (procProjectiles rest ents).2.2) := by
  rw [procProjectiles, h]

/-- C5.  In every `checkProjectileHits` call: the scan (`hitIndex`) of a
projectile selects exactly the FIRST entity in list (insertion) order
that is alive at scan time and within the fixed hit radius — a dead
entity is never selected and ties are broken by list order; when no such
entity exists the scan is empty; a projectile whose scan hits entity `i`
damages exactly that entity through `takeDamage` (health decreases by the
projectile damage, clamped at 0), contributes exactly one `HitEvent`
carrying its damage, and is removed, while later projectiles scan the
already-damaged entity list; a projectile whose scan misses is kept and
changes nothing; and every projectile is either kept or scores exactly
one hit (`kept + hits = total`). -/
theorem c5_hit_resolution :
    (∀ (pos : Vec3) (ents : List Entity) (i : ℕ),
      hitIndex pos ents = some i →
        i < ents.length
        ∧ (∀ e, ents[i]? = some e → hittable pos e)
        ∧ (∀ j e', j < i → ents[j]? = some e' → ¬ hittable pos e'))
    ∧ (∀ (pos : Vec3) (ents : List Entity),
      hitIndex pos ents = none ↔ ∀ e ∈ ents, ¬ hittable pos e)
    ∧ (∀ (proj : Projectile) (rest : List Projectile) (ents : List Entity) (i : ℕ),
      hitIndex proj.position ents = some i →
        procProjectiles (proj :: rest) ents
          = ((procProjectiles rest
                (updateAt i (fun e => e.takeDamage proj.damage) ents)).1,
             (procProjectiles rest
                (updateAt i (fun e => e.takeDamage proj.damage) ents)).2.1,
             ⟨i, proj.damage⟩
               :: (procProjectiles rest
                    (updateAt i (fun e => e.takeDamage proj.damage) ents)).2.2))
    ∧ (∀ (proj : Projectile) (rest : List Projectile) (ents : List Entity),
      hitIndex proj.position ents = none →
        procProjectiles (proj :: rest) ents
          = (proj :: (procProjectiles rest ents).1,
             (procProjectiles rest ents).2.1,
             (procProjectiles rest ents).2.2))
    ∧ (∀ (projs : List Projectile) (ents : List Entity),
      (procProjectiles projs ents).1.length
          + (procProjectiles projs ents).2.2.length = projs.length)
    ∧ (∀ (e : Entity) (amount : ℚ),
      (e.takeDamage amount).health = max 0 (e.health - amount))
    ∧ (∀ (s : CombatState) (ents : List Entity),
      checkProjectileHits s ents
        = ({ s with projectiles := (procProjectiles s.projectiles ents).1 },
           (procProjectiles s.projectiles ents).2.1,
           (procProjectiles s.projectiles ents).2.2)) := by
  refine ⟨?_, ?_, procProjectiles_hit, procProjectiles_miss, ?_, ?_,
    fun s ents => rfl⟩
  · intro pos ents
    induction ents with
    | nil => intro i h; simp [hitIndex] at h
    | cons e es ih =>
      intro i h
      rw [hitIndex] at h
      by_cases he : hittable pos e
      · rw [if_pos ⟨he.1, he.2⟩] at h
        cases h
        refine ⟨by simp, ?_, ?_⟩
        · intro e' he'
          simp at he'
          exact he' ▸ he
        · intro j e' hj
          omega
      · rw [if_neg (fun hc => he ⟨hc.1, hc.2⟩)] at h
        match hi : hitIndex pos es with
        | none => rw [hi] at h; simp at h
        | some i' =>
          rw [hi] at h
          simp at h
          obtain ⟨hlt, hget, hfirst⟩ := ih i' hi
          subst h
          refine ⟨by simpa using hlt, ?_, ?_⟩
          · intro e' he'
            simp only [List.getElem?_cons_succ] at he'
            exact hget e' he'
          · intro j e' hj hje
            match j with
            | 0 =>
              simp only [List.getElem?_cons_zero, Option.some.injEq] at hje
              exact hje ▸ he
            | j' + 1 =>
              simp only [List.getElem?_cons_succ] at hje
              exact hfirst j' e' (by omega) hje
  · intro pos ents
    induction ents with
    | nil => simp [hitIndex]
    | cons e es ih =>
      rw [hitIndex]
      by_cases he : hittable pos e
      · rw [if_pos ⟨he.1, he.2⟩]
        simp [he]
      · rw [if_neg (fun hc => he ⟨hc.1, hc.2⟩)]
        constructor
        · intro h
          simp at h
          intro e' he'
          rcases List.mem_cons.mp he' with rfl | hmem
          · exact he
          · exact (ih.mp h) e' hmem
        · intro h
          simp
          exact ih.mpr fun e' he' => h e' (List.mem_cons_of_mem e he')
  · intro projs
    induction projs with
    | nil => intro ents; rfl
    | cons p ps ih =>
      intro ents
      cases hi : hitIndex p.position ents with
      | some i =>
        rw [procProjectiles_hit p ps ents i hi]
        have := ih (updateAt i (fun e => e.takeDamage p.damage) ents)
        simp only [List.length_cons]
        omega
      | none =>
        rw [procProjectiles_miss p ps ents hi]
        have := ih ents
        simp only [List.length_cons]
        omega
  · intro e amount
    rw [Entity.takeDamage]
    by_cases h : e.health - amount ≤ 0
    · rw [if_pos h]
      simp [max_eq_left h]
    · rw [if_neg h]
      push_neg at h
      simp [max_eq_right (le_of_lt h)]

/-- Fixture: a dead entity sitting right on the projectile position. -/
def fixDead : Entity := ⟨⟨0, 0, 0⟩, 0, 100, false, 1⟩

/-- Fixture: a live entity one unit away (inside the hit radius 2). -/
def fixNear : Entity := ⟨⟨1, 0, 0⟩, 200, 200, true, 0⟩

/-- C5, witness: scanning `[fixDead, fixNear]` from the origin skips the
dead entity (even though it is closer) and selects index 1, which is
alive and within the radius, every earlier index being unhittable. -/
theorem c5_hit_resolution_witness :
    hitIndex ⟨0, 0, 0⟩ [fixDead, fixNear] = some 1
    ∧ (1 < [fixDead, fixNear].length
      ∧ (∀ e, [fixDead, fixNear][1]? = some e → hittable ⟨0, 0, 0⟩ e)
      ∧ (∀ j e', j < 1 → [fixDead, fixNear][j]? = some e'
          → ¬ hittable ⟨0, 0, 0⟩ e')) := by
  have h : hitIndex ⟨0, 0, 0⟩ [fixDead, fixNear] = some 1 := by
    norm_num [hitIndex, fixDead, fixNear, Vec3.distSq]
  exact ⟨h, c5_hit_resolution.1 ⟨0, 0, 0⟩ [fixDead, fixNear] 1 h⟩

end BlueEscape
